import Mathlib

/-!
# Verification of the Flux MCP server core

A shallow embedding, in Lean 4, of the reimplementation-worthy slice of the
`bfl-api-mcp` repository: the Tool Dispatcher (`FluxMcpServer.callTool`) and
the Remote Task Client's polling loop (`FluxApiClient.waitForCompletion`),
translated from `src/FluxMcpServer.js` and `src/FluxApiClient.js`.

JavaScript values that can appear in a tool-argument mapping or in a remote
response payload are modelled by the inductive type `JVal` (JSON-like values
over integers).  JavaScript numbers are modelled as `Int`; `NaN` appears as
`Option.none` in numeric coercions.  `ToNumber` coercion of arrays and
objects (which goes through `ToPrimitive` string conversion in JavaScript)
is modelled as `NaN`; all theorems that depend on numeric coercions restrict
the relevant option values to primitives, where the model is exact.

Effects are made explicit: the dispatcher is a pure function parameterised
over the behaviour of its collaborators (`Remote`), returning the outcome
(`Except` for a thrown error versus a returned content block) together with
a trace of the collaborator calls it made (`ApiEvent`).  The polling loop is
a pure function of the sequence of responses that successive `getResult`
calls produce; elapsed wall-clock time at the guard of iteration `i` is
modelled as `i * pollInterval` (the sleeps are the only modelled time), and
the list of statuses handed to the `onProgress` observer is returned
alongside the outcome.
-/

set_option autoImplicit false

namespace Flux

/-- JSON-like JavaScript values (numbers modelled as integers). -/
inductive JVal where
  | str : String → JVal
  | num : Int → JVal
  | bool : Bool → JVal
  | null : JVal
  | arr : List JVal → JVal
  | obj : List (String × JVal) → JVal

/-- A tool-argument mapping / request payload: a JavaScript object, modelled
as an association list of fields in insertion order. -/
def Args := List (String × JVal)

/-- JavaScript truthiness of a value. -/
def JVal.truthy : JVal → Bool
  | .str s => s != ""
  | .num n => n != 0
  | .bool b => b
  | .null => false
  | .arr _ => true
  | .obj _ => true

/-- Truthiness of a possibly-undefined value (`none` is `undefined`). -/
def truthyOpt : Option JVal → Bool
  | none => false
  | some v => v.truthy

/-- Digits-only string to natural number; `none` when a non-digit occurs. -/
def digitsToNat : List Char → Option Nat
  | [] => none
  | cs =>
    if cs.all Char.isDigit then
      some (cs.foldl (fun a c => a * 10 + (c.toNat - 48)) 0)
    else none

/-- JavaScript `ToNumber` on a string, restricted to integer results:
trimmed empty string is `0`, an optional sign followed by digits is that
integer, anything else is `NaN` (`none`).  (Fractional, hexadecimal and
exponent literals, which JavaScript would accept, are conservatively mapped
to `NaN`; no theorem below depends on them.) -/
def jsStrToNumber (s : String) : Option Int :=
  let t := s.trim
  if t = "" then some 0
  else
    match t.data with
    | '-' :: rest => (digitsToNat rest).map (fun n => -(n : Int))
    | '+' :: rest => (digitsToNat rest).map (fun n => (n : Int))
    | cs => (digitsToNat cs).map (fun n => (n : Int))

/-- JavaScript `ToNumber` coercion; `none` is `NaN`.  Arrays and objects are
modelled as `NaN` (see the module docstring). -/
def JVal.toNumber : JVal → Option Int
  | .num n => some n
  | .bool b => some (if b then 1 else 0)
  | .null => some 0
  | .str s => jsStrToNumber s
  | .arr _ => none
  | .obj _ => none

/-- Field lookup in an argument mapping (`undefined` is `none`). -/
def jlookup (k : String) (args : Args) : Option JVal := List.lookup k args

/-- A thrown JavaScript `Error`, identified by its message. -/
structure JsError where
  message : String
deriving DecidableEq, Repr

/-- Property access `v.k` as JavaScript evaluates it: throws a `TypeError`
on `null`, returns the field of an object (or `undefined` when absent), and
`undefined` on other values (primitives and arrays have none of the
properties accessed by this code). -/
def getField (v : JVal) (k : String) : Except JsError (Option JVal) :=
  match v with
  | .null => .error ⟨"Cannot read properties of null (reading \x27" ++ k ++ "\x27)"⟩
  | .obj fields => .ok (List.lookup k fields)
  | _ => .ok none

/-! ## Tool Dispatcher: constants and fast validation
(from `FluxMcpServer.js`, constructor and `callTool` lines 566-601) -/

/-- The fixed tool-name-to-endpoint table (`this.endpointMap`). -/
def endpointMap : List (String × String) :=
  [("flux_pro_generate", "v1/flux-pro"),
   ("flux_dev_generate", "v1/flux-dev"),
   ("flux_pro_11_generate", "v1/flux-pro-1.1"),
   ("flux_kontext_pro_generate", "v1/flux-kontext-pro"),
   ("flux_kontext_max_generate", "v1/flux-kontext-max")]

/-- `this.endpointMap[toolName]` (`undefined` is `none`). -/
def endpointLookup (toolName : String) : Option String :=
  List.lookup toolName endpointMap

/-- The local-only fields filtered out of the remote payload
(`this.fileManagementParams`). -/
def fileManagementParams : List String := ["output_path", "filename"]

/-- `args.width && args.width % 32 !== 0` (and the same check for
`height`): the value is present and truthy, and its numeric coercion has a
nonzero remainder mod 32 (`NaN % 32 !== 0` holds in JavaScript, so `NaN`
fails the check). -/
def dimCheckFails (v : Option JVal) : Bool :=
  match v with
  | none => false
  | some v =>
    v.truthy &&
      (match v.toNumber with
       | some n => n % 32 != 0
       | none => true)

/-- `args.safety_tolerance && (args.safety_tolerance < 0 ||
args.safety_tolerance > 6)`: present and truthy, and numerically below 0 or
above 6 (comparisons with `NaN` are false in JavaScript, so `NaN` passes). -/
def safetyCheckFails (v : Option JVal) : Bool :=
  match v with
  | none => false
  | some v =>
    v.truthy &&
      (match v.toNumber with
       | some n => decide (n < 0) || decide (6 < n)
       | none => false)

/-- The fast-validation phase of `callTool` (lines 572-601): returns the
text of the first error report, or `none` when validation passes. -/
def validateArgs (args : Args) : Option String :=
  if !truthyOpt (jlookup "prompt" args) then
    some "❌ Error: prompt is required"
  else if dimCheckFails (jlookup "width" args) then
    some "❌ Error: width must be a multiple of 32"
  else if dimCheckFails (jlookup "height" args) then
    some "❌ Error: height must be a multiple of 32"
  else if safetyCheckFails (jlookup "safety_tolerance" args) then
    some "❌ Error: safety_tolerance must be between 0 and 6"
  else none

/-- `const apiPayload = \x7b ...args \x7d;` followed by
`this.fileManagementParams.forEach(param => delete apiPayload[param])`:
a shallow copy of `args` from which each local field is deleted. -/
def buildApiPayload (args : Args) : Args :=
  fileManagementParams.foldl
    (fun acc param => acc.filter (fun p => p.1 != param)) args

/-! ## Artifact extraction (`callTool` lines 618-628) -/

/-- `new Error(\x27No image URL found in result\x27)`. -/
def noImageUrlErr : JsError := ⟨"No image URL found in result"⟩

/-- The `TypeError` thrown by `x.sample` when `x` is `null`. -/
def nullSampleErr : JsError :=
  ⟨"Cannot read properties of null (reading \x27sample\x27)"⟩

/-- The artifact-extraction branch of `callTool`, as JavaScript evaluates
it.  Note `typeof null === \x27object\x27` in JavaScript, so a `null`
payload reaches `resultData.sample` and throws a `TypeError`; an object
whose `sample` field is falsy falls through both branches and throws
`noImageUrlErr`; a first array element that is neither a string nor an
object yields `undefined` (`Option.none`) without an error. -/
def extractImageUrl : Option JVal → Except JsError (Option JVal)
  | none => .error noImageUrlErr
  | some .null => .error nullSampleErr
  | some (.obj fields) =>
    match List.lookup "sample" fields with
    | some v => if v.truthy then .ok (some v) else .error noImageUrlErr
    | none => .error noImageUrlErr
  | some (.arr []) => .error noImageUrlErr
  | some (.arr (x :: _)) =>
    match x with
    | .str s => .ok (some (.str s))
    | .null => .error nullSampleErr
    | .obj fields => .ok (List.lookup "sample" fields)
    | _ => .ok none
  | some _ => .error noImageUrlErr

/-! ## String formatting helpers (`callTool` lines 631-663) -/

/-- JavaScript string conversion of a value in a template literal.
Array elements that are `null` render as the empty string inside
`Array.prototype.toString`. -/
def jsToString : JVal → String
  | .str s => s
  | .num n => toString n
  | .bool b => if b then "true" else "false"
  | .null => "null"
  | .obj _ => "[object Object]"
  | .arr xs => String.intercalate "," (jsToStringList xs)
where
  jsToStringList : List JVal → List String
  | [] => []
  | .null :: vs => "" :: jsToStringList vs
  | v :: vs => jsToString v :: jsToStringList vs

/-- `$\x7bx\x7d` where `x` may be `undefined`. -/
def jsDisplayOpt : Option JVal → String
  | none => "undefined"
  | some v => jsToString v

/-- `$\x7bx || dflt\x7d`: the default string is used when `x` is falsy. -/
def jsDisplayOr (v : Option JVal) (dflt : String) : String :=
  if truthyOpt v then jsDisplayOpt v else dflt

/-- `s.substring(0, n)`. -/
def jsSubstring (s : String) (n : Nat) : String := ⟨s.data.take n⟩

/-- `word.charAt(0).toUpperCase() + word.slice(1)`. -/
def jsCapitalize (w : String) : String :=
  match w.data with
  | [] => ""
  | c :: rest => ⟨c.toUpper :: rest⟩

/-- `toolName.split(\x27_\x27).map(...).join(\x27 \x27)` (line 641). -/
def modelDisplayName (toolName : String) : String :=
  String.intercalate " " ((toolName.splitOn "_").map jsCapitalize)

/-- `String.prototype.replace` with a string pattern replaces only the
first occurrence. -/
def replaceFirstAux (pat repl : List Char) : List Char → List Char
  | [] => if List.isPrefixOf pat [] then repl else []
  | c :: rest =>
    if List.isPrefixOf pat (c :: rest) then
      repl ++ List.drop pat.length (c :: rest)
    else c :: replaceFirstAux pat repl rest

/-- `s.replace(pat, repl)` for string patterns (first occurrence only). -/
def jsReplaceFirst (s pat repl : String) : String :=
  ⟨replaceFirstAux pat.data repl.data s.data⟩

/-- `toolName.replace(\x27_generate\x27, \x27\x27).replace(\x27_\x27, \x27-\x27)`
(line 631); only the first underscore is dashed. -/
def modelOf (toolName : String) : String :=
  jsReplaceFirst (jsReplaceFirst toolName "_generate" "") "_" "-"

/-- The options object handed to `fileManager.saveGeneratedImage`
(lines 632-638). -/
structure SaveOptions where
  outputPath : Option JVal
  filename : Option JVal
  prompt : Option JVal
  model : String
  outputFormat : Option JVal

def mkSaveOptions (toolName : String) (args : Args) : SaveOptions :=
  { outputPath := jlookup "output_path" args
    filename := jlookup "filename" args
    prompt := jlookup "prompt" args
    model := modelOf toolName
    outputFormat := jlookup "output_format" args }

/-- The success report text (lines 645-663), for a string prompt `ps`. -/
def successText (toolName : String) (args : Args) (ps : String)
    (taskId imageUrl savedPath : Option JVal) : String :=
  "✅ **Image Generated Successfully!**\n\n" ++
  "🎨 **Model:** " ++ modelDisplayName toolName ++ "\n" ++
  "📝 **Prompt:** " ++ jsSubstring ps 100 ++
    (if ps.length > 100 then "..." else "") ++ "\n" ++
  "💾 **Saved to:** " ++ jsDisplayOpt savedPath ++ "\n" ++
  "🆔 **Task ID:** " ++ jsDisplayOpt taskId ++ "\n" ++
  "🔗 **Original URL:** " ++ jsDisplayOpt imageUrl ++ "\n\n" ++
  "**Generation Parameters:**\n" ++
  "- Dimensions: " ++ jsDisplayOr (jlookup "width" args) "default" ++ "x" ++
    jsDisplayOr (jlookup "height" args) "default" ++ "\n" ++
  "- Seed: " ++ jsDisplayOr (jlookup "seed" args) "random" ++ "\n" ++
  "- Steps: " ++ jsDisplayOr (jlookup "steps" args) "default" ++ "\n" ++
  "- Guidance: " ++ jsDisplayOr (jlookup "guidance" args) "default" ++ "\n" ++
  "- Safety: " ++ jsDisplayOr (jlookup "safety_tolerance" args) "2" ++ "\n\n" ++
  "The image is ready to use in your project! 🚀"

/-- Building the success report can itself throw: `args.prompt.substring`
is a `TypeError` on a non-string prompt, and `saveResult.savedPath` throws
on a `null` save result (evaluation order of the template literal). -/
def renderSuccess (toolName : String) (args : Args) (taskId imageUrl : Option JVal)
    (saveResult : JVal) : Except JsError String :=
  match jlookup "prompt" args with
  | some (.str ps) =>
    (getField saveResult "savedPath").map
      (fun sp => successText toolName args ps taskId imageUrl sp)
  | some _ => .error ⟨"args.prompt.substring is not a function"⟩
  | none => .error ⟨"Cannot read properties of undefined (reading \x27substring\x27)"⟩

/-! ## The dispatcher (`FluxMcpServer.callTool`, lines 566-671) -/

/-- An MCP content block `\x7b type: \x27text\x27, text \x7d`. -/
structure McpText where
  type : String
  text : String
deriving DecidableEq, Repr

def textContent (s : String) : McpText := ⟨"text", s⟩

/-- One collaborator call made by the dispatcher, with its arguments. -/
inductive ApiEvent where
  | submit : String → Args → ApiEvent
  | wait : Option JVal → ApiEvent
  | save : Option JVal → SaveOptions → ApiEvent

/-- The behaviour of the dispatcher's collaborators: what
`apiClient.submitGeneration`, `apiClient.waitForCompletion` and
`fileManager.saveGeneratedImage` return (or throw) when called. -/
structure Remote where
  submitGeneration : String → Args → Except JsError JVal
  waitForCompletion : Option JVal → Except JsError JVal
  saveGeneratedImage : Option JVal → SaveOptions → Except JsError JVal

/-- The body of the `try` block of `callTool` (lines 603-663): submit,
await completion, extract the artifact, save, format.  Returns the success
text or the first thrown error, together with the trace of collaborator
calls made. -/
def runPipeline (b : Remote) (toolName endpoint : String) (args : Args) :
    Except JsError String × List ApiEvent :=
  let apiPayload := buildApiPayload args
  match b.submitGeneration endpoint apiPayload with
  | .error e => (.error e, [.submit endpoint apiPayload])
  | .ok submissionResult =>
    match getField submissionResult "id" with
    | .error e => (.error e, [.submit endpoint apiPayload])
    | .ok taskId =>
      match b.waitForCompletion taskId with
      | .error e => (.error e, [.submit endpoint apiPayload, .wait taskId])
      | .ok completionResult =>
        match getField completionResult "result" with
        | .error e => (.error e, [.submit endpoint apiPayload, .wait taskId])
        | .ok resultData =>
          match extractImageUrl resultData with
          | .error e => (.error e, [.submit endpoint apiPayload, .wait taskId])
          | .ok imageUrl =>
            let opts := mkSaveOptions toolName args
            match b.saveGeneratedImage imageUrl opts with
            | .error e =>
              (.error e,
               [.submit endpoint apiPayload, .wait taskId, .save imageUrl opts])
            | .ok saveResult =>
              match renderSuccess toolName args taskId imageUrl saveResult with
              | .error e =>
                (.error e,
                 [.submit endpoint apiPayload, .wait taskId, .save imageUrl opts])
              | .ok txt =>
                (.ok txt,
                 [.submit endpoint apiPayload, .wait taskId, .save imageUrl opts])

/-- `FluxMcpServer.callTool`: unknown tools throw (`Except.error`); a fast
validation failure returns an error report with no collaborator call; any
error thrown inside the `try` block is caught and converted into an
`❌ Error executing ...` report. -/
def callTool (b : Remote) (toolName : String) (args : Args) :
    Except JsError McpText × List ApiEvent :=
  match endpointLookup toolName with
  | none => (.error ⟨"Unknown tool: " ++ toolName⟩, [])
  | some endpoint =>
    match validateArgs args with
    | some msg => (.ok (textContent msg), [])
    | none =>
      match runPipeline b toolName endpoint args with
      | (.ok txt, events) => (.ok (textContent txt), events)
      | (.error e, events) =>
        (.ok (textContent ("❌ Error executing " ++ toolName ++ ": " ++ e.message)),
         events)

/-! ## Remote Task Client polling loop
(`FluxApiClient.waitForCompletion`, `FluxApiClient.js` lines 163-192)

The loop is a pure function of the sequence of parsed `getResult`
responses: `fetch i` is the response to the `(i+1)`-st poll.  Per the wire
protocol the response is an object with a string `status` field; the rest
of the payload is carried opaquely.  Elapsed wall-clock time at the guard
of iteration `i` is modelled as `i * pollInterval` (the inter-poll sleeps
are the only modelled time).  The loop is driven by fuel
`maxWaitTime + 1`; whenever `1 ≤ pollInterval` the guard fails no later
than the fuel does, so the fuel is never the reason the loop stops (with
`pollInterval = 0` the JavaScript loop would poll a non-terminal task
forever, which a terminating model cannot express; the theorems below
assume a positive interval, the source default being 2000). -/

/-- A parsed `getResult` response: its `status` string and the rest of the
payload (`result` field), carried opaquely. -/
structure PollResult where
  status : String
  result : Option JVal

/-- `[\x27Error\x27, \x27Content Moderated\x27, \x27Request Moderated\x27]`
(line 183). -/
def failureStatuses : List String :=
  ["Error", "Content Moderated", "Request Moderated"]

def isFailureStatus (s : String) : Bool := failureStatuses.contains s

/-- A status on which the loop stops (glossary: terminal state). -/
def isTerminalStatus (s : String) : Bool := s == "Ready" || isFailureStatus s

/-- Default `maxWaitTime` (milliseconds). -/
def defaultMaxWaitTime : Nat := 300000

/-- Default `pollInterval` (milliseconds). -/
def defaultPollInterval : Nat := 2000

/-- One pass of the `while` loop, starting at iteration `i`.  The second
component of the value is the list of responses handed to the `onProgress`
observer (every fetched response, in order, before its terminality is
evaluated). -/
def waitLoop (fetch : Nat → PollResult) (maxWaitTime pollInterval : Nat) :
    Nat → Nat → Except JsError PollResult × List PollResult
  | _, 0 => (.error ⟨"Task timed out"⟩, [])
  | i, fuel+1 =>
    if i * pollInterval < maxWaitTime then
      let r := fetch i
      if r.status == "Ready" then (.ok r, [r])
      else if isFailureStatus r.status then
        (.error ⟨"Task failed: " ++ r.status⟩, [r])
      else
        let rest := waitLoop fetch maxWaitTime pollInterval (i+1) fuel
        (rest.1, r :: rest.2)
    else (.error ⟨"Task timed out"⟩, [])

/-- `FluxApiClient.waitForCompletion` as a function of the response
sequence: outcome (`Ready` response, or thrown error) and observer log. -/
def waitForCompletion (fetch : Nat → PollResult) (maxWaitTime pollInterval : Nat) :
    Except JsError PollResult × List PollResult :=
  waitLoop fetch maxWaitTime pollInterval 0 (maxWaitTime + 1)

/-! ## A mutable-heap view of the payload construction
(`callTool` lines 608-609)

The two statements `const apiPayload = \x7b ...args \x7d` and
`this.fileManagementParams.forEach(param => delete apiPayload[param])` are
the only statements of `callTool` that could mutate an object; everything
else only reads properties of `args`.  To state that the caller's mapping
is not mutated, objects live in an explicit store and the two statements
are modelled as store operations: the spread allocates a fresh reference
holding a copy, and each `delete` writes back through the fresh reference. -/

/-- A heap of JavaScript objects: contents per reference, plus the next
fresh reference.  A reference `r` is live when `r < st.2`. -/
def Store : Type := (Nat → Args) × Nat

def readRef (st : Store) (r : Nat) : Args := st.1 r

def writeRef (st : Store) (r : Nat) (o : Args) : Store :=
  (Function.update st.1 r o, st.2)

/-- `\x7b ...args \x7d`: allocate a fresh object holding the same fields. -/
def spreadAlloc (st : Store) (r : Nat) : Store × Nat :=
  ((Function.update st.1 st.2 (readRef st r), st.2 + 1), st.2)

/-- `delete o[k]` on the object behind reference `r`. -/
def deleteField (st : Store) (r : Nat) (k : String) : Store :=
  writeRef st r ((readRef st r).filter (fun p => p.1 != k))

/-- Lines 608-609 as store operations: spread `args` into a fresh
`apiPayload` reference, then delete each file-management parameter on it.
Returns the updated store and the `apiPayload` reference. -/
def buildApiPayloadSt (st : Store) (argsRef : Nat) : Store × Nat :=
  let a := spreadAlloc st argsRef
  (fileManagementParams.foldl (fun s param => deleteField s a.2 param) a.1, a.2)

/-! ## Concrete collaborator behaviours used to instantiate theorems -/

/-- A remote whose submission fails at the transport level (the shape
`submitGeneration` gives a `fetch` rejection). -/
def errRemote : Remote :=
  ⟨fun _ _ => .error ⟨"Network error: connection refused"⟩,
   fun _ => .error ⟨"unreachable"⟩,
   fun _ _ => .error ⟨"unreachable"⟩⟩

/-- A remote that accepts the submission and reports a terminal `Ready`
result whose `result` payload is `null`. -/
def readyNullRemote : Remote :=
  ⟨fun _ _ => .ok (.obj [("id", .str "t1"), ("polling_url", .str "u")]),
   fun _ => .ok (.obj [("id", .str "t1"), ("status", .str "Ready"), ("result", .null)]),
   fun _ _ => .ok .null⟩

/-- The number of polls the loop performs when no terminal status ever
appears: the number of iterations `i` with `i * pollInterval < maxWaitTime`,
that is `⌈maxWaitTime / pollInterval⌉`. -/
def numPolls (maxWaitTime pollInterval : Nat) : Nat :=
  (maxWaitTime + pollInterval - 1) / pollInterval

/-! ## Specification-side validation (for comparison with `validateArgs`)

These definitions follow the wording of the (amended) specification rather
than the source, for the refinement comparison below. -/

/-- Spec wording: `prompt` is present and a non-empty string. -/
def specPromptOk : Option JVal → Bool
  | some (JVal.str s) => s != ""
  | _ => false

/-- Spec wording (amended): the dimension is supplied, nonzero, and not
divisible by 32.  (Positivity is not part of the amended constraint: zero
and negative multiples of 32 are accepted.) -/
def specDimViolation : Option JVal → Bool
  | some (JVal.num n) => decide (n ≠ 0) && decide (¬ (32 : Int) ∣ n)
  | _ => false

/-- Spec wording (amended): `safety_tolerance` is supplied, nonzero, and
outside `[0, 6]`. -/
def specSafetyViolation : Option JVal → Bool
  | some (JVal.num n) => decide (n ≠ 0) && decide (n < 0 ∨ 6 < n)
  | _ => false

/-- The fast-validation phase as the (amended) specification words it:
first violation wins, in the order prompt, width, height,
safety_tolerance, each with its own report text. -/
def specValidate (args : Args) : Option String :=
  if !specPromptOk (jlookup "prompt" args) then
    some "❌ Error: prompt is required"
  else if specDimViolation (jlookup "width" args) then
    some "❌ Error: width must be a multiple of 32"
  else if specDimViolation (jlookup "height" args) then
    some "❌ Error: height must be a multiple of 32"
  else if specSafetyViolation (jlookup "safety_tolerance" args) then
    some "❌ Error: safety_tolerance must be between 0 and 6"
  else none

def c1Args : Args :=
  [("prompt", JVal.str "A cat"), ("width", JVal.num 1024),
   ("output_path", JVal.str "/tmp/out"), ("filename", JVal.str "f")]

def pendingFetch : Nat → PollResult := fun _ => ⟨"Pending", none⟩

def queuedFetch : Nat → PollResult := fun _ => ⟨"Queued", none⟩

def demoStore : Store :=
  (fun _ => [("prompt", JVal.str "X"), ("output_path", JVal.str "/tmp"),
             ("filename", JVal.str "f")], 1)

def c3CexArgs : Args := [("prompt", JVal.str "X"), ("width", JVal.num (-32))]

def c3WitnessArgs : Args := [("prompt", JVal.str "ok")]

def failingFetch : Nat → PollResult :=
  fun i => if i = 0 then ⟨"Pending", none⟩ else ⟨"Content Moderated", none⟩

def readyAfterPending : Nat → PollResult :=
  fun i => if i = 0 then ⟨"Pending", none⟩
           else ⟨"Ready", some (.obj [("sample", .str "u")])⟩

/-! ## Helper lemmas -/

theorem lookup_filter_ne (k key : String) (l : Args) (h : k ≠ key) :
    List.lookup k (l.filter (fun p => p.1 != key)) = List.lookup k l := by
  induction l with
  | nil => rfl
  | cons hd tl ih =>
    by_cases hk : hd.1 = key
    · have : (hd.1 != key) = false := by simp [hk]
      have hne : (k == hd.1) = false := by simp [hk, h]
      simp [List.filter, this, List.lookup, hne, ih]
    · have : (hd.1 != key) = true := by simp [hk]
      by_cases hkk : k = hd.1
      · simp [List.filter, this, List.lookup, hkk]
      · have hne : (k == hd.1) = false := by simp [hkk]
        simp [List.filter, this, List.lookup, hne, ih]

theorem lookup_filter_self (key : String) (l : Args) :
    List.lookup key (l.filter (fun p => p.1 != key)) = none := by
  induction l with
  | nil => rfl
  | cons hd tl ih =>
    by_cases hk : hd.1 = key
    · have : (hd.1 != key) = false := by simp [hk]
      simp [List.filter, this, ih]
    · have h1 : (hd.1 != key) = true := by simp [hk]
      have hne : (key == hd.1) = false := by
        simp only [beq_eq_false_iff_ne, ne_eq]
        exact fun h => hk h.symm
      simp [List.filter, h1, List.lookup, hne, ih]

theorem buildApiPayload_eq_filter (args : Args) :
    buildApiPayload args =
      (args.filter (fun p => p.1 != "output_path")).filter
        (fun p => p.1 != "filename") := rfl

theorem buildApiPayload_no_output_path (args : Args) :
    List.lookup "output_path" (buildApiPayload args) = none := by
  rw [buildApiPayload_eq_filter,
    lookup_filter_ne "output_path" "filename" _ (by decide)]
  exact lookup_filter_self _ _

theorem buildApiPayload_no_filename (args : Args) :
    List.lookup "filename" (buildApiPayload args) = none := by
  rw [buildApiPayload_eq_filter]
  exact lookup_filter_self _ _

theorem buildApiPayload_lookup_other (args : Args) (k : String)
    (h1 : k ≠ "output_path") (h2 : k ≠ "filename") :
    List.lookup k (buildApiPayload args) = List.lookup k args := by
  rw [buildApiPayload_eq_filter, lookup_filter_ne _ _ _ h2,
    lookup_filter_ne _ _ _ h1]

/-- Whenever the pipeline runs, its first collaborator call is the
submission, and the submitted payload is the filtered copy of `args`. -/
theorem runPipeline_events_head (b : Remote) (toolName ep : String) (args : Args) :
    ∃ rest, (runPipeline b toolName ep args).2 =
      ApiEvent.submit ep (buildApiPayload args) :: rest := by
  simp only [runPipeline]
  cases hs : b.submitGeneration ep (buildApiPayload args) with
  | error e => exact ⟨[], rfl⟩
  | ok submissionResult =>
    dsimp only
    cases hid : getField submissionResult "id" with
    | error e => exact ⟨[], rfl⟩
    | ok taskId =>
      dsimp only
      cases hw : b.waitForCompletion taskId with
      | error e => exact ⟨[.wait taskId], rfl⟩
      | ok completionResult =>
        dsimp only
        cases hr : getField completionResult "result" with
        | error e => exact ⟨[.wait taskId], rfl⟩
        | ok resultData =>
          dsimp only
          cases hx : extractImageUrl resultData with
          | error e => exact ⟨[.wait taskId], rfl⟩
          | ok imageUrl =>
            dsimp only
            cases hsv : b.saveGeneratedImage imageUrl (mkSaveOptions toolName args) with
            | error e =>
              exact ⟨[.wait taskId, .save imageUrl (mkSaveOptions toolName args)], rfl⟩
            | ok saveResult =>
              dsimp only
              cases hren : renderSuccess toolName args taskId imageUrl saveResult with
              | error e =>
                exact ⟨[.wait taskId, .save imageUrl (mkSaveOptions toolName args)], rfl⟩
              | ok txt =>
                exact ⟨[.wait taskId, .save imageUrl (mkSaveOptions toolName args)], rfl⟩

/-- When the tool is known and fast validation passes, `callTool` reports
the pipeline outcome and makes exactly the pipeline's collaborator calls. -/
theorem callTool_valid (b : Remote) (toolName ep : String) (args : Args)
    (hep : endpointLookup toolName = some ep) (hv : validateArgs args = none) :
    callTool b toolName args =
      ((match (runPipeline b toolName ep args).1 with
        | .ok txt => .ok (textContent txt)
        | .error e =>
          .ok (textContent ("❌ Error executing " ++ toolName ++ ": " ++ e.message))),
       (runPipeline b toolName ep args).2) := by
  unfold callTool
  rw [hep, hv]
  dsimp only
  rcases h : runPipeline b toolName ep args with ⟨out, events⟩
  cases out <;> rfl

/-- A fast-validation failure returns the report and makes no collaborator
call. -/
theorem callTool_invalid (b : Remote) (toolName ep : String) (args : Args) (msg : String)
    (hep : endpointLookup toolName = some ep) (hv : validateArgs args = some msg) :
    callTool b toolName args = (.ok (textContent msg), []) := by
  unfold callTool
  rw [hep, hv]

theorem status_not_ready_of_not_terminal {s : String}
    (h : isTerminalStatus s = false) : (s == "Ready") = false := by
  unfold isTerminalStatus at h
  cases hb : (s == "Ready") with
  | false => rfl
  | true => rw [hb] at h; simp at h

theorem status_not_failure_of_not_terminal {s : String}
    (h : isTerminalStatus s = false) : isFailureStatus s = false := by
  unfold isTerminalStatus at h
  cases hb : isFailureStatus s with
  | false => rfl
  | true => rw [hb] at h; simp at h

theorem failure_not_ready {s : String} (h : isFailureStatus s = true) :
    (s == "Ready") = false := by
  have hmem : s = "Error" ∨ s = "Content Moderated" ∨ s = "Request Moderated" := by
    simpa [isFailureStatus, failureStatuses] using h
  rcases hmem with rfl | rfl | rfl <;> rfl

/-- If every response fetched inside the wait window is non-terminal, the
loop body never returns and the outcome is the timeout error, for any
amount of fuel. -/
theorem waitLoop_timeout (fetch : Nat → PollResult) (mW p : Nat)
    (h : ∀ i, i * p < mW → isTerminalStatus (fetch i).status = false) :
    ∀ fuel i, (waitLoop fetch mW p i fuel).1 = .error ⟨"Task timed out"⟩ := by
  intro fuel
  induction fuel with
  | zero => intro i; rfl
  | succ n ih =>
    intro i
    by_cases hg : i * p < mW
    · have h1 := status_not_ready_of_not_terminal (h i hg)
      have h2 := status_not_failure_of_not_terminal (h i hg)
      simp [waitLoop, hg, h1, h2, ih (i + 1)]
    · simp [waitLoop, hg]

/-- The loop only ever returns a `Ready` response. -/
theorem waitLoop_ok_ready (fetch : Nat → PollResult) (mW p : Nat) :
    ∀ fuel i r, (waitLoop fetch mW p i fuel).1 = .ok r → r.status = "Ready" := by
  intro fuel
  induction fuel with
  | zero => intro i r h; simp [waitLoop] at h
  | succ n ih =>
    intro i r h
    by_cases hg : i * p < mW
    · by_cases hready : ((fetch i).status == "Ready") = true
      · simp [waitLoop, hg, hready] at h
        rw [← h]
        exact eq_of_beq hready
      · by_cases hfail : isFailureStatus (fetch i).status = true
        · simp [waitLoop, hg, hready, hfail] at h
        · simp [waitLoop, hg, hready, hfail] at h
          exact ih (i + 1) r h
    · simp [waitLoop, hg] at h

/-- Behaviour of the loop when the first terminal response appears at
relative offset `k` inside the wait window: the outcome is decided by that
response, and the observer log is exactly the `k + 1` responses fetched up
to and including it. -/
theorem waitLoop_first_terminal (fetch : Nat → PollResult) (mW p : Nat) :
    ∀ (k i fuel : Nat),
      (∀ j, j < k → isTerminalStatus (fetch (i + j)).status = false) →
      (i + k) * p < mW →
      isTerminalStatus (fetch (i + k)).status = true →
      k < fuel →
      waitLoop fetch mW p i fuel =
        ((if (fetch (i + k)).status == "Ready" then .ok (fetch (i + k))
          else .error ⟨"Task failed: " ++ (fetch (i + k)).status⟩),
         (List.range (k + 1)).map (fun j => fetch (i + j))) := by
  intro k
  induction k with
  | zero =>
    intro i fuel hpre hwin hterm hfuel
    obtain ⟨m, rfl⟩ : ∃ m, fuel = m + 1 := ⟨fuel - 1, by omega⟩
    have hg : i * p < mW := by simpa using hwin
    simp only [Nat.add_zero] at hterm ⊢
    by_cases hready : ((fetch i).status == "Ready") = true
    · simp [waitLoop, hg, hready, List.range_succ]
    · have hr : ((fetch i).status == "Ready") = false := by simpa using hready
      have hfail : isFailureStatus (fetch i).status = true := by
        unfold isTerminalStatus at hterm
        cases hb : isFailureStatus (fetch i).status with
        | true => rfl
        | false => rw [hr, hb] at hterm; simp at hterm
      simp [waitLoop, hg, hready, hfail, List.range_succ]
  | succ k ih =>
    intro i fuel hpre hwin hterm hfuel
    obtain ⟨m, rfl⟩ : ∃ m, fuel = m + 1 := ⟨fuel - 1, by omega⟩
    have hg : i * p < mW := by
      have hle : i * p ≤ (i + (k + 1)) * p := Nat.mul_le_mul_right p (by omega)
      exact lt_of_le_of_lt hle hwin
    have h0 : isTerminalStatus (fetch i).status = false := by
      simpa using hpre 0 (by omega)
    have h1 := status_not_ready_of_not_terminal h0
    have h2 := status_not_failure_of_not_terminal h0
    have ihx := ih (i + 1) m
      (fun j hj => by
        have := hpre (j + 1) (by omega)
        simpa [show i + (j + 1) = i + 1 + j by omega] using this)
      (by rw [show (i + 1 + k) = i + (k + 1) by omega]; exact hwin)
      (by rw [show (i + 1 + k) = i + (k + 1) by omega]; exact hterm)
      (by omega)
    have hstep : waitLoop fetch mW p i (m + 1) =
        ((waitLoop fetch mW p (i + 1) m).1,
         fetch i :: (waitLoop fetch mW p (i + 1) m).2) := by
      simp [waitLoop, hg, h1, h2]
    rw [hstep, ihx]
    rw [show (i + 1 + k) = i + (k + 1) by omega]
    refine Prod.ext rfl ?_
    show fetch i :: (List.range (k + 1)).map (fun j => fetch (i + 1 + j)) =
      (List.range (k + 1 + 1)).map (fun j => fetch (i + j))
    conv_rhs => rw [List.range_succ_eq_map, List.map_cons, List.map_map]
    refine congrArg₂ List.cons ?_ ?_
    · show fetch i = fetch (i + 0)
      exact congrArg fetch (by omega)
    · refine List.map_congr_left (fun j _ => ?_)
      show fetch (i + 1 + j) = fetch (i + (j + 1))
      exact congrArg fetch (by omega)

theorem lt_numPolls_iff (mW p : Nat) (hp : 1 ≤ p) (i : Nat) :
    i < numPolls mW p ↔ i * p < mW := by
  unfold numPolls
  rw [Nat.lt_iff_add_one_le, Nat.le_div_iff_mul_le hp]
  have h : (i + 1) * p = i * p + p := by ring
  rw [h]
  omega

theorem waitLoop_log_nonterminal (fetch : Nat → PollResult) (mW p : Nat)
    (hp : 1 ≤ p)
    (hunk : ∀ i, isTerminalStatus (fetch i).status = false) :
    ∀ fuel i, numPolls mW p ≤ i + fuel →
      (waitLoop fetch mW p i fuel).2 =
        (List.range' i (numPolls mW p - i)).map fetch := by
  intro fuel
  induction fuel with
  | zero =>
    intro i hf
    have h0 : numPolls mW p - i = 0 := by omega
    rw [h0]
    simp [waitLoop]
  | succ n ih =>
    intro i hf
    by_cases hg : i * p < mW
    · have hlt : i < numPolls mW p := (lt_numPolls_iff mW p hp i).mpr hg
      have h1 := status_not_ready_of_not_terminal (hunk i)
      have h2 := status_not_failure_of_not_terminal (hunk i)
      have hstep : (waitLoop fetch mW p i (n + 1)).2 =
          fetch i :: (waitLoop fetch mW p (i + 1) n).2 := by
        simp [waitLoop, hg, h1, h2]
      rw [hstep, ih (i + 1) (by omega)]
      rw [show numPolls mW p - i = (numPolls mW p - (i + 1)) + 1 by omega]
      rw [List.range'_succ]
      rfl
    · have hge : numPolls mW p ≤ i := by
        by_contra hc
        push_neg at hc
        exact hg ((lt_numPolls_iff mW p hp i).mp hc)
      rw [show numPolls mW p - i = 0 by omega]
      simp [waitLoop, hg]

theorem numPolls_le (mW p : Nat) (hp : 1 ≤ p) : numPolls mW p ≤ mW + 1 := by
  by_contra hc
  push_neg at hc
  have h1 := (lt_numPolls_iff mW p hp (mW + 1)).mp (by omega)
  have h2 : mW + 1 ≤ (mW + 1) * p := Nat.le_mul_of_pos_right _ hp
  omega

/-- With only non-terminal responses, the observer log is exactly the
responses to all `numPolls` polls, in order. -/
theorem waitForCompletion_log_all (fetch : Nat → PollResult) (mW p : Nat)
    (hp : 1 ≤ p)
    (hunk : ∀ i, isTerminalStatus (fetch i).status = false) :
    (waitForCompletion fetch mW p).2 = (List.range (numPolls mW p)).map fetch := by
  have h := waitLoop_log_nonterminal fetch mW p hp hunk (mW + 1) 0
    (by have := numPolls_le mW p hp; omega)
  rw [waitForCompletion, h, Nat.sub_zero, List.range_eq_range']

/-- The two payload-building statements leave the caller's `args` object
untouched and produce, behind the fresh reference, exactly the filtered
copy that `buildApiPayload` describes. -/
theorem buildApiPayloadSt_spec (st : Store) (r : Nat) (h : r < st.2) :
    readRef (buildApiPayloadSt st r).1 r = readRef st r ∧
    readRef (buildApiPayloadSt st r).1 (buildApiPayloadSt st r).2 =
      buildApiPayload (readRef st r) := by
  have hne : r ≠ st.2 := by omega
  constructor
  · simp [buildApiPayloadSt, spreadAlloc, deleteField, writeRef, readRef,
      fileManagementParams, Function.update, hne]
  · simp [buildApiPayloadSt, spreadAlloc, deleteField, writeRef, readRef,
      fileManagementParams, Function.update, buildApiPayload]

theorem dimCheckFails_num (n : Int) :
    dimCheckFails (some (JVal.num n)) = specDimViolation (some (JVal.num n)) := by
  have h : ((32 : Int) ∣ n) ↔ n % 32 = 0 := Int.dvd_iff_emod_eq_zero
  by_cases h0 : n = 0
  · subst h0; rfl
  · by_cases hd : (32 : Int) ∣ n
    · have hm : n % 32 = 0 := h.mp hd
      simp [dimCheckFails, specDimViolation, JVal.truthy, JVal.toNumber, h0, hd, hm]
    · have hm : n % 32 ≠ 0 := fun c => hd (h.mpr c)
      simp [dimCheckFails, specDimViolation, JVal.truthy, JVal.toNumber, h0, hd, hm]

theorem safetyCheckFails_num (n : Int) :
    safetyCheckFails (some (JVal.num n)) = specSafetyViolation (some (JVal.num n)) := by
  by_cases h0 : n = 0
  · subst h0; rfl
  · simp only [safetyCheckFails, specSafetyViolation, JVal.truthy, JVal.toNumber]
    by_cases hlo : n < 0 <;> by_cases hhi : 6 < n <;> simp [h0, hlo, hhi]

/-! ## Claim theorems -/

/-- Claim C1: for every known tool name and every argument mapping that
passes fast validation, the payload handed to `submitGeneration` is the
argument mapping minus exactly the two local fields: `output_path` and
`filename` are absent from the payload, and every other key looks up to
the same value in the payload as in the arguments. -/
theorem callTool_submit_payload_c1 (b : Remote) (toolName ep : String) (args : Args)
    (hep : endpointLookup toolName = some ep)
    (hv : validateArgs args = none) :
    (∃ rest, (callTool b toolName args).2 =
        ApiEvent.submit ep (buildApiPayload args) :: rest) ∧
    List.lookup "output_path" (buildApiPayload args) = none ∧
    List.lookup "filename" (buildApiPayload args) = none ∧
    ∀ k, k ≠ "output_path" → k ≠ "filename" →
      List.lookup k (buildApiPayload args) = List.lookup k args := by
  refine ⟨?_, buildApiPayload_no_output_path args, buildApiPayload_no_filename args,
    fun k h1 h2 => buildApiPayload_lookup_other args k h1 h2⟩
  rw [callTool_valid b toolName ep args hep hv]
  exact runPipeline_events_head b toolName ep args

theorem callTool_submit_payload_c1_witness :
    (∃ rest, (callTool errRemote "flux_pro_generate" c1Args).2 =
        ApiEvent.submit "v1/flux-pro" (buildApiPayload c1Args) :: rest) ∧
    List.lookup "output_path" (buildApiPayload c1Args) = none ∧
    List.lookup "filename" (buildApiPayload c1Args) = none ∧
    ∀ k, k ≠ "output_path" → k ≠ "filename" →
      List.lookup k (buildApiPayload c1Args) = List.lookup k c1Args :=
  callTool_submit_payload_c1 errRemote "flux_pro_generate" "v1/flux-pro" c1Args
    (by decide) (by decide)

/-- Claim C2 counterexample: at the concrete unknown tool name
`unknown_tool`, `callTool` throws (`Except.error`) instead of returning a
structured error report — the repository's own test suite expects this
throw. -/
theorem callTool_unknown_tool_c2_cex :
    callTool errRemote "unknown_tool" [] =
      (.error ⟨"Unknown tool: unknown_tool"⟩, []) := rfl

/-- Claim C2 (amended): for every tool name outside the endpoint table,
`callTool` throws an `Error` whose message is `Unknown tool: <name>`,
making no collaborator call; it does not return a report. -/
theorem callTool_unknown_tool_throws_c2 (b : Remote) (toolName : String) (args : Args)
    (h : endpointLookup toolName = none) :
    callTool b toolName args = (.error ⟨"Unknown tool: " ++ toolName⟩, []) := by
  unfold callTool
  rw [h]

theorem callTool_unknown_tool_throws_c2_witness :
    callTool errRemote "not_a_tool" [("prompt", JVal.str "x")] =
      (.error ⟨"Unknown tool: " ++ "not_a_tool"⟩, []) :=
  callTool_unknown_tool_throws_c2 errRemote "not_a_tool"
    [("prompt", JVal.str "x")] (by decide)

/-- Claim C4: when no fetched status within the wait window is terminal,
`waitForCompletion` fails with the timeout error; and it never returns a
non-`Ready` response. -/
theorem waitForCompletion_timeout_c4 :
    (∀ (fetch : Nat → PollResult) (maxWaitTime pollInterval : Nat),
       1 ≤ pollInterval →
       (∀ i, i * pollInterval < maxWaitTime →
          isTerminalStatus (fetch i).status = false) →
       (waitForCompletion fetch maxWaitTime pollInterval).1 =
         .error ⟨"Task timed out"⟩) ∧
    (∀ (fetch : Nat → PollResult) (maxWaitTime pollInterval : Nat) (r : PollResult),
       (waitForCompletion fetch maxWaitTime pollInterval).1 = .ok r →
       r.status = "Ready") := by
  constructor
  · intro fetch mW p _ h
    exact waitLoop_timeout fetch mW p h (mW + 1) 0
  · intro fetch mW p r h
    exact waitLoop_ok_ready fetch mW p (mW + 1) 0 r h

theorem waitForCompletion_timeout_c4_witness :
    (waitForCompletion pendingFetch 5 2).1 = .error ⟨"Task timed out"⟩ :=
  waitForCompletion_timeout_c4.1 pendingFetch 5 2 (by decide) (fun i _ => rfl)

/-- Claim C9: when every fetched status lies outside the terminal set
(for example an unrecognized value), the loop treats it as non-terminal:
it performs every one of the `numPolls` polls (reporting each response to
the observer) and then fails with the timeout error, never with a
task-failure error. -/
theorem waitForCompletion_unknown_status_c9 (fetch : Nat → PollResult)
    (maxWaitTime pollInterval : Nat)
    (hp : 1 ≤ pollInterval)
    (hunk : ∀ i, isTerminalStatus (fetch i).status = false) :
    (waitForCompletion fetch maxWaitTime pollInterval).1 =
      .error ⟨"Task timed out"⟩ ∧
    (waitForCompletion fetch maxWaitTime pollInterval).2 =
      (List.range (numPolls maxWaitTime pollInterval)).map fetch :=
  ⟨waitLoop_timeout fetch maxWaitTime pollInterval (fun i _ => hunk i)
      (maxWaitTime + 1) 0,
   waitForCompletion_log_all fetch maxWaitTime pollInterval hp hunk⟩

theorem waitForCompletion_unknown_status_c9_witness :
    (waitForCompletion queuedFetch 5 2).1 = .error ⟨"Task timed out"⟩ ∧
    (waitForCompletion queuedFetch 5 2).2 =
      (List.range (numPolls 5 2)).map queuedFetch :=
  waitForCompletion_unknown_status_c9 queuedFetch 5 2 (by decide) (fun i => rfl)

/-- Claim C10: the payload is built from a shallow copy of the caller's
argument object, and the `delete`s are performed on that copy: after the
two payload-building statements the caller's object is unchanged (all of
its keys and values, including `output_path` and `filename`, are still
there), while the fresh payload object holds the filtered fields. -/
theorem callTool_args_not_mutated_c10 (st : Store) (argsRef : Nat)
    (h : argsRef < st.2) :
    readRef (buildApiPayloadSt st argsRef).1 argsRef = readRef st argsRef ∧
    readRef (buildApiPayloadSt st argsRef).1 (buildApiPayloadSt st argsRef).2 =
      buildApiPayload (readRef st argsRef) :=
  buildApiPayloadSt_spec st argsRef h

theorem callTool_args_not_mutated_c10_witness :
    readRef (buildApiPayloadSt demoStore 0).1 0 = readRef demoStore 0 ∧
    readRef (buildApiPayloadSt demoStore 0).1 (buildApiPayloadSt demoStore 0).2 =
      buildApiPayload (readRef demoStore 0) :=
  callTool_args_not_mutated_c10 demoStore 0 (by decide)

/-- Claim C3 counterexample: `width = -32` is supplied and is not a
positive integer, yet fast validation passes and a network submission is
made (the trace contains the submit call), contradicting the claimed
rejection of every non-positive width before any network call. -/
theorem validateArgs_c3_cex :
    validateArgs c3CexArgs = none ∧
    (callTool errRemote "flux_pro_generate" c3CexArgs).2 =
      [ApiEvent.submit "v1/flux-pro" (buildApiPayload c3CexArgs)] ∧
    ¬ (0 : Int) < -32 :=
  ⟨by decide, rfl, by decide⟩

/-- Claim C3 (amended): for argument mappings whose `prompt` is absent or
a string and whose `width`, `height` and `safety_tolerance` are numbers
when supplied, fast validation rejects exactly the first violation in the
order prompt (present and non-empty), width (if supplied and nonzero,
divisible by 32 — positivity is not checked, so zero and negative
multiples of 32 pass), height (same), safety_tolerance (if supplied and
nonzero, in `[0, 6]`), each with its own report text; a rejection returns
the report with no collaborator call, and when no constraint is violated
submission proceeds. -/
theorem validateArgs_refines_spec_c3 (b : Remote) (toolName ep : String) (args : Args)
    (hprompt : jlookup "prompt" args = none ∨
      ∃ s, jlookup "prompt" args = some (JVal.str s))
    (hwidth : ∀ v, jlookup "width" args = some v → ∃ n, v = JVal.num n)
    (hheight : ∀ v, jlookup "height" args = some v → ∃ n, v = JVal.num n)
    (hsafety : ∀ v, jlookup "safety_tolerance" args = some v → ∃ n, v = JVal.num n)
    (hep : endpointLookup toolName = some ep) :
    validateArgs args = specValidate args ∧
    (∀ msg, specValidate args = some msg →
      callTool b toolName args = (.ok (textContent msg), [])) ∧
    (specValidate args = none →
      ∃ rest, (callTool b toolName args).2 =
        ApiEvent.submit ep (buildApiPayload args) :: rest) := by
  have hpeq : truthyOpt (jlookup "prompt" args) =
      specPromptOk (jlookup "prompt" args) := by
    rcases hprompt with h | ⟨s, h⟩ <;> rw [h] <;> rfl
  have hweq : dimCheckFails (jlookup "width" args) =
      specDimViolation (jlookup "width" args) := by
    cases hv : jlookup "width" args with
    | none => rfl
    | some v => obtain ⟨n, rfl⟩ := hwidth v hv; exact dimCheckFails_num n
  have hheq : dimCheckFails (jlookup "height" args) =
      specDimViolation (jlookup "height" args) := by
    cases hv : jlookup "height" args with
    | none => rfl
    | some v => obtain ⟨n, rfl⟩ := hheight v hv; exact dimCheckFails_num n
  have hseq : safetyCheckFails (jlookup "safety_tolerance" args) =
      specSafetyViolation (jlookup "safety_tolerance" args) := by
    cases hv : jlookup "safety_tolerance" args with
    | none => rfl
    | some v => obtain ⟨n, rfl⟩ := hsafety v hv; exact safetyCheckFails_num n
  have heq : validateArgs args = specValidate args := by
    unfold validateArgs specValidate
    rw [hpeq, hweq, hheq, hseq]
  refine ⟨heq, ?_, ?_⟩
  · intro msg hmsg
    exact callTool_invalid b toolName ep args msg hep (heq.trans hmsg)
  · intro hnone
    rw [callTool_valid b toolName ep args hep (heq.trans hnone)]
    exact runPipeline_events_head b toolName ep args

theorem validateArgs_refines_spec_c3_witness :
    validateArgs c3WitnessArgs = specValidate c3WitnessArgs ∧
    (∀ msg, specValidate c3WitnessArgs = some msg →
      callTool errRemote "flux_dev_generate" c3WitnessArgs =
        (.ok (textContent msg), [])) ∧
    (specValidate c3WitnessArgs = none →
      ∃ rest, (callTool errRemote "flux_dev_generate" c3WitnessArgs).2 =
        ApiEvent.submit "v1/flux-dev" (buildApiPayload c3WitnessArgs) :: rest) :=
  validateArgs_refines_spec_c3 errRemote "flux_dev_generate" "v1/flux-dev"
    c3WitnessArgs (Or.inr ⟨"ok", rfl⟩) (fun v hv => nomatch hv)
    (fun v hv => nomatch hv) (fun v hv => nomatch hv) (by decide)

/-- Claim C5: whenever the first terminal status fetched inside the wait
window is one of the failure states `Error`, `Content Moderated` or
`Request Moderated`, `waitForCompletion` fails with an error naming that
exact status string and returns no result. -/
theorem waitForCompletion_task_failed_c5 (fetch : Nat → PollResult)
    (maxWaitTime pollInterval k : Nat)
    (hp : 1 ≤ pollInterval)
    (hpre : ∀ j, j < k → isTerminalStatus (fetch j).status = false)
    (hwin : k * pollInterval < maxWaitTime)
    (hfail : isFailureStatus (fetch k).status = true) :
    (waitForCompletion fetch maxWaitTime pollInterval).1 =
      .error ⟨"Task failed: " ++ (fetch k).status⟩ := by
  have hterm : isTerminalStatus (fetch k).status = true := by
    unfold isTerminalStatus
    rw [hfail]
    simp
  have hfuel : k < maxWaitTime + 1 := by
    have h1 : k ≤ k * pollInterval := by
      calc k = k * 1 := by ring
      _ ≤ k * pollInterval := Nat.mul_le_mul_left k hp
    omega
  have h := waitLoop_first_terminal fetch maxWaitTime pollInterval k 0
    (maxWaitTime + 1)
    (fun j hj => by simpa using hpre j hj)
    (by simpa using hwin)
    (by simpa using hterm)
    hfuel
  unfold waitForCompletion
  rw [h]
  simp only [Nat.zero_add]
  rw [failure_not_ready hfail]
  simp

theorem waitForCompletion_task_failed_c5_witness :
    (waitForCompletion failingFetch 5 2).1 =
      .error ⟨"Task failed: " ++ (failingFetch 1).status⟩ :=
  waitForCompletion_task_failed_c5 failingFetch 5 2 1 (by decide)
    (fun j hj => by
      have h0 : j = 0 := by omega
      subst h0
      rfl)
    (by decide) rfl

/-- Claim C6: when the first terminal status appears at poll `k` inside
the wait window, the observer-invocation log is exactly the `k + 1`
responses fetched, in order — every fetched status, including the
terminal one, is handed to `onProgress` before the loop returns or
throws. -/
theorem waitForCompletion_observer_log_c6 (fetch : Nat → PollResult)
    (maxWaitTime pollInterval k : Nat)
    (hp : 1 ≤ pollInterval)
    (hpre : ∀ j, j < k → isTerminalStatus (fetch j).status = false)
    (hwin : k * pollInterval < maxWaitTime)
    (hterm : isTerminalStatus (fetch k).status = true) :
    (waitForCompletion fetch maxWaitTime pollInterval).2 =
      (List.range (k + 1)).map fetch := by
  have hfuel : k < maxWaitTime + 1 := by
    have h1 : k ≤ k * pollInterval := by
      calc k = k * 1 := by ring
      _ ≤ k * pollInterval := Nat.mul_le_mul_left k hp
    omega
  have h := waitLoop_first_terminal fetch maxWaitTime pollInterval k 0
    (maxWaitTime + 1)
    (fun j hj => by simpa using hpre j hj)
    (by simpa using hwin)
    (by simpa using hterm)
    hfuel
  unfold waitForCompletion
  rw [h]
  simp

theorem waitForCompletion_observer_log_c6_witness :
    (waitForCompletion readyAfterPending 5 2).2 =
      (List.range 2).map readyAfterPending :=
  waitForCompletion_observer_log_c6 readyAfterPending 5 2 1 (by decide)
    (fun j hj => by
      have h0 : j = 0 := by omega
      subst h0
      rfl)
    (by decide) rfl

/-- Claim C7: for a known tool, `callTool` never throws past its own
boundary: whatever the collaborators do, the outcome is a returned content
block, and when the pipeline throws after validation passed, the report
text names the tool and the error message. -/
theorem callTool_never_raises_c7 (b : Remote) (toolName ep : String) (args : Args)
    (hep : endpointLookup toolName = some ep) :
    (∃ t, (callTool b toolName args).1 = .ok t) ∧
    (∀ e, validateArgs args = none →
       (runPipeline b toolName ep args).1 = .error e →
       (callTool b toolName args).1 =
         .ok (textContent ("❌ Error executing " ++ toolName ++ ": " ++ e.message))) := by
  constructor
  · cases hv : validateArgs args with
    | some msg =>
      rw [callTool_invalid b toolName ep args msg hep hv]
      exact ⟨textContent msg, rfl⟩
    | none =>
      rw [callTool_valid b toolName ep args hep hv]
      cases hr : (runPipeline b toolName ep args).1 with
      | ok txt => exact ⟨textContent txt, rfl⟩
      | error e =>
        exact ⟨textContent ("❌ Error executing " ++ toolName ++ ": " ++ e.message),
          rfl⟩
  · intro e hv hr
    rw [callTool_valid b toolName ep args hep hv]
    show (match (runPipeline b toolName ep args).1 with
      | .ok txt => Except.ok (textContent txt)
      | .error e =>
        Except.ok (textContent ("❌ Error executing " ++ toolName ++ ": " ++ e.message))) =
      .ok (textContent ("❌ Error executing " ++ toolName ++ ": " ++ e.message))
    rw [hr]

theorem callTool_never_raises_c7_witness :
    (callTool errRemote "flux_pro_generate" [("prompt", JVal.str "p")]).1 =
      .ok (textContent ("❌ Error executing " ++ "flux_pro_generate" ++ ": " ++
        "Network error: connection refused")) :=
  (callTool_never_raises_c7 errRemote "flux_pro_generate" "v1/flux-pro"
      [("prompt", JVal.str "p")] (by decide)).2
    ⟨"Network error: connection refused"⟩ (by decide) rfl

/-- Claim C8 counterexample: a terminal `Ready` result whose payload is
`null` does not produce the `No image URL found in result` error the
claim requires for every unrecognized shape; `typeof null === \x27object\x27`
in JavaScript, so the code throws a `TypeError` reading `sample` of
`null`, and that message — a different one — is what the report
surfaces. -/
theorem extract_null_result_c8_cex :
    (callTool readyNullRemote "flux_pro_generate" [("prompt", JVal.str "X")]).1 =
      .ok (textContent ("❌ Error executing flux_pro_generate: " ++
        nullSampleErr.message)) ∧
    nullSampleErr ≠ noImageUrlErr :=
  ⟨rfl, by decide⟩

/-- Claim C8 (amended): the artifact reference is extracted as follows —
an object payload with a truthy `sample` field yields that value; a
non-empty sequence yields its first element when that element is a
string, and otherwise that element's `sample` field (possibly
`undefined`); an absent payload, an empty sequence, a primitive payload,
and an object without a truthy `sample` all fail with the
`No image URL found in result` error; a `null` payload instead throws the
`TypeError` for reading `sample` of `null`. -/
theorem extractImageUrl_spec_c8 :
    (∀ fields v, List.lookup "sample" fields = some v → v.truthy = true →
       extractImageUrl (some (JVal.obj fields)) = .ok (some v)) ∧
    (∀ s rest, extractImageUrl (some (JVal.arr (JVal.str s :: rest))) =
       .ok (some (JVal.str s))) ∧
    (∀ fields rest, extractImageUrl (some (JVal.arr (JVal.obj fields :: rest))) =
       .ok (List.lookup "sample" fields)) ∧
    extractImageUrl none = .error noImageUrlErr ∧
    extractImageUrl (some (JVal.arr [])) = .error noImageUrlErr ∧
    (∀ s, extractImageUrl (some (JVal.str s)) = .error noImageUrlErr) ∧
    (∀ n, extractImageUrl (some (JVal.num n)) = .error noImageUrlErr) ∧
    (∀ bv, extractImageUrl (some (JVal.bool bv)) = .error noImageUrlErr) ∧
    (∀ fields, List.lookup "sample" fields = none →
       extractImageUrl (some (JVal.obj fields)) = .error noImageUrlErr) ∧
    (∀ fields v, List.lookup "sample" fields = some v → v.truthy = false →
       extractImageUrl (some (JVal.obj fields)) = .error noImageUrlErr) ∧
    extractImageUrl (some JVal.null) = .error nullSampleErr := by
  refine ⟨?_, fun s rest => rfl, fun fields rest => rfl, rfl, rfl,
    fun s => rfl, fun n => rfl, fun bv => rfl, ?_, ?_, rfl⟩
  · intro fields v h ht
    simp [extractImageUrl, h, ht]
  · intro fields h
    simp [extractImageUrl, h]
  · intro fields v h ht
    simp [extractImageUrl, h, ht]

theorem extractImageUrl_spec_c8_witness :
    extractImageUrl (some (JVal.obj [("sample", JVal.str "u")])) =
      .ok (some (JVal.str "u")) :=
  extractImageUrl_spec_c8.1 [("sample", JVal.str "u")] (JVal.str "u") rfl rfl

end Flux
